import Mathlib

/-!
Verification development for the Mokosh moderation bots
(src/discord/main.py and src/telegram/app/main.py).

The two bots forward chat content to a remote classification API and
enforce warn/ban actions based on per-(scope, user) violation counts
stored in SQLite.  This file is a shallow embedding of the pure parts of
that logic: JSON verdict handling, the settings overlay, the violation
ledger, and the `apply_verdict` enforcement paths, with the fallible
external calls (delete / reply / log / ban) modelled by explicit failure
flags and an action trace.
-/

namespace Mokosh

/-- A decoded JSON value, as produced by `r.json()` in the Python source.
Numbers are modelled as rationals. -/
inductive JVal where
  | null : JVal
  | bool (b : Bool) : JVal
  | num (q : ℚ) : JVal
  | str (s : String) : JVal
  | arr (xs : List JVal) : JVal
  | obj (kvs : List (String × JVal)) : JVal

/-- A JSON object is an association list of string keys to values
(Python dicts have unique keys; the embedding works key-lookup-wise). -/
abbrev JObj := List (String × JVal)

/-- Key lookup in a JSON object, modelling Python `d[k]` / `d.get(k)`:
the first binding for the key, if any. -/
def jlookup (d : JObj) (k : String) : Option JVal :=
  match d with
  | [] => none
  | (k', v) :: rest => if k' = k then some v else jlookup rest k

/-- Python truthiness of a decoded JSON value, as used by `bool(...)` and
by `x or y` / `if result and ...` in the source. -/
def truthy : JVal → Bool
  | .null => false
  | .bool b => b
  | .num q => q != 0
  | .str s => s ≠ ""
  | .arr xs => !xs.isEmpty
  | .obj kvs => !kvs.isEmpty

/-- Python dict merge `\x7b**d1, **d2\x7d`: the keys of `d1` in order with
values overridden by `d2` where present, followed by the keys of `d2`
not present in `d1`, in order. -/
def mergeDicts (d1 d2 : JObj) : JObj :=
  d1.map (fun kv => (kv.1, (jlookup d2 kv.1).getD kv.2)) ++
    d2.filter (fun kv => (jlookup d1 kv.1).isNone)

theorem jlookup_append (d1 d2 : JObj) (k : String) :
    jlookup (d1 ++ d2) k = ((jlookup d1 k).orElse (fun _ => jlookup d2 k)) := by
  induction d1 with
  | nil => simp [jlookup]
  | cons kv rest ih =>
    by_cases h : kv.1 = k
    · simp [jlookup, h, Option.orElse]
    · simp [jlookup, h, ih]

theorem jlookup_filter_isNone (d1 d2 : JObj) (k : String) (h : jlookup d1 k = none) :
    jlookup (d2.filter (fun kv => (jlookup d1 kv.1).isNone)) k = jlookup d2 k := by
  induction d2 with
  | nil => rfl
  | cons kv rest ih =>
    by_cases hk : kv.1 = k
    · subst hk
      simp [List.filter, h, jlookup, ih]
    · by_cases hn : (jlookup d1 kv.1).isNone
      · simp [List.filter, hn, jlookup, hk, ih]
      · simp [List.filter, hn, jlookup, hk, ih]

theorem jlookup_map_override (d1 d2 : JObj) (k : String) :
    jlookup (d1.map (fun kv => (kv.1, (jlookup d2 kv.1).getD kv.2))) k =
      (jlookup d1 k).map (fun v => (jlookup d2 k).getD v) := by
  induction d1 with
  | nil => rfl
  | cons kv rest ih =>
    by_cases hk : kv.1 = k
    · subst hk
      simp [jlookup]
    · simp [jlookup, hk, ih]

/-- Overlay semantics of the Python dict merge: a key present in the
override wins, otherwise the base value is used. -/
theorem jlookup_mergeDicts (d1 d2 : JObj) (k : String) :
    jlookup (mergeDicts d1 d2) k =
      ((jlookup d2 k).orElse (fun _ => jlookup d1 k)) := by
  unfold mergeDicts
  rw [jlookup_append, jlookup_map_override]
  cases h1 : jlookup d1 k with
  | some v =>
    cases h2 : jlookup d2 k with
    | some w => simp [Option.orElse]
    | none => simp [Option.orElse]
  | none =>
    rw [jlookup_filter_isNone d1 d2 k h1]
    cases h2 : jlookup d2 k with
    | some w => simp [Option.orElse]
    | none => simp [Option.orElse]

/-! ## Violation ledger

The SQLite table `violations (scope_id, user_id, count)` with
`get_violations` returning the stored count or 0, and `set_violations`
performing `INSERT ... ON CONFLICT DO UPDATE SET count = excluded.count`,
i.e. an upsert that stores the caller-supplied value verbatim.
A store is modelled as a total function with default 0, which is
observationally identical to row-or-0. -/

abbrev ScopeId := Int

abbrev UserId := Int

abbrev ViolStore := ScopeId → UserId → ℕ

def get_violations (s : ViolStore) (g : ScopeId) (u : UserId) : ℕ := s g u

def set_violations (s : ViolStore) (g : ScopeId) (u : UserId) (count : ℕ) : ViolStore :=
  fun g' u' => if g' = g ∧ u' = u then count else s g' u'

theorem get_set_violations (s : ViolStore) (g : ScopeId) (u : UserId) (c : ℕ) :
    get_violations (set_violations s g u c) g u = c := by
  simp [get_violations, set_violations]

/-! ## Settings store

Table `guild_settings` / `chat_settings`: one JSON blob per scope.
`get_settings` returns defaults merged with the stored blob when a row
exists (Python `\x7b**DEFAULT_SETTINGS, **json.loads(row)\x7d`), else a copy
of the defaults; `save_settings` upserts, replacing the blob wholesale
(`ON CONFLICT DO UPDATE SET settings = excluded.settings`). -/

abbrev SettingsStore := ScopeId → Option JObj

/-- DEFAULT_SETTINGS of src/discord/main.py (no mute_minutes / auto_mute). -/
def discordDefaultSettings : JObj :=
  [ ("min_confidence_for_action", .num (55/100)),
    ("mute_threshold_violations", .num 2),
    ("block_threshold_violations", .num 4),
    ("auto_warn", .bool true),
    ("auto_block", .bool true),
    ("instant_mute_categories",
      .arr [.str "sexual", .str "verbal_abuse", .str "harassment", .str "gasslighting"]),
    ("instant_block_categories", .arr [.str "threat", .str "stalking"]),
    ("apply_only_if_not_safe", .bool true),
    ("tag_sender_in_reply", .bool true) ]

/-- DEFAULT_SETTINGS of src/telegram/app/main.py. -/
def telegramDefaultSettings : JObj :=
  [ ("min_confidence_for_action", .num (55/100)),
    ("mute_minutes", .num 60),
    ("mute_threshold_violations", .num 2),
    ("block_threshold_violations", .num 4),
    ("auto_warn", .bool true),
    ("auto_mute", .bool true),
    ("auto_block", .bool true),
    ("instant_mute_categories",
      .arr [.str "sexual", .str "verbal_abuse", .str "harassment", .str "gasslighting"]),
    ("instant_block_categories", .arr [.str "threat", .str "stalking"]),
    ("apply_only_if_not_safe", .bool true),
    ("tag_sender_in_reply", .bool true) ]

/-- Settings read, parameterised by the platform's default dict. -/
def get_settings (defaults : JObj) (store : SettingsStore) (g : ScopeId) : JObj :=
  match store g with
  | some stored => mergeDicts defaults stored
  | none => defaults

/-- Settings write: the stored blob for the scope is replaced wholesale. -/
def save_settings (store : SettingsStore) (g : ScopeId) (st : JObj) : SettingsStore :=
  fun g' => if g' = g then some st else store g'

/-- Extract a numeric settings field, for stating concrete facts. -/
def getNumField (d : JObj) (k : String) : Option ℚ :=
  match jlookup d k with
  | some (.num q) => some q
  | _ => none

/-! ## Classification results

Both files define the same `is_bad_result(result)`:
`bool(result.get("is_bad") or result.get("status") == "bad")`. -/

/-- Python equality of a decoded JSON value with the string literal
"bad" (`result.get("status") == "bad"`; a missing key gives None, which
compares unequal). -/
def statusIsBad : Option JVal → Bool
  | some (.str s) => s = "bad"
  | _ => false

def is_bad_result (result : JObj) : Bool :=
  (truthy ((jlookup result "is_bad").getD .null)) || statusIsBad (jlookup result "status")

/-- Confidence extraction in `apply_verdict`:
`result.get("confidence", 0.0)`.  A missing key yields the default 0.0.
A stored bool compares as 0/1 in Python; a non-numeric, non-bool value
would raise at the later float comparison (outside every claim's input
domain) and is mapped to 0 here. -/
def getConfidence (result : JObj) : ℚ :=
  match jlookup result "confidence" with
  | some (.num q) => q
  | some (.bool b) => if b then 1 else 0
  | _ => 0

/-! ## The outcome of one HTTP classification call

`api_text` posts to /analyze/messages inside a try/except: any raised
exception (timeout, connection failure, JSON decode failure) is caught
and None is returned.  On success it unwraps a batch envelope:
if the decoded body is a dict containing "results", the verdict is
`data["results"][0]`, else the body itself.  The code of `api_text` is
verbatim identical in src/discord/main.py and src/telegram/app/main.py. -/

/-- One classification HTTP exchange, from the caller's point of view:
either the decoded JSON body, or a raised exception (timeout, connect
error, unparseable body). -/
inductive ApiOutcome where
  | ok (data : JVal) : ApiOutcome
  | error : ApiOutcome

/-- Response handling of `api_text` (both platforms): exceptions give
None; a dict with a "results" key is unwrapped to element 0 (an empty
list or an unsubscriptable value raises inside the try block, hence
None; Python string indexing yields the first character). -/
def api_text (outcome : ApiOutcome) : Option JVal :=
  match outcome with
  | .error => none
  | .ok data =>
    match data with
    | .obj kvs =>
      match jlookup kvs "results" with
      | some (.arr (v :: _)) => some v
      | some (.arr []) => none
      | some (.str s) => if s.isEmpty then none else some (.str (s.take 1))
      | some _ => none
      | none => some (.obj kvs)
    | other => some other

/-! ## Enforcement: apply_verdict

Discord (src/discord/main.py, apply_verdict):
  read prior, write prior+1, compute should_ban from the fixed
  constants, then: (1) try delete, (2) try channel warning,
  (3) resolve log channel and, when available, try posting,
  (4) when should_ban, try the ban; every try/except swallows the
  failure and control continues.

Telegram (src/telegram/app/main.py, apply_verdict):
  read prior, write prior+1, compute should_ban, then try the warning
  reply — on failure the handler RETURNS — and only when should_ban:
  try delete, then try ban (each failure swallowed).

External calls are modelled by failure flags; the returned trace lists
the calls that were attempted (issued), in order. -/

/-- Fixed moderation thresholds, identical in both files. -/
def BAN_VIOLATION_THRESHOLD : ℕ := 2

def BAN_CONFIDENCE_THRESHOLD : ℚ := 80/100

/-- One attempted platform call in the enforcement sequence. -/
inductive Act where
  | deleteMsg : Act
  | warnReply : Act
  | logPost : Act
  | banMember : Act
deriving DecidableEq, Repr

/-- The decided escalation action (the source encodes it as the branch
on should_ban: ban embed/ban call vs warning only). -/
inductive ModAction where
  | warn : ModAction
  | ban : ModAction
deriving DecidableEq, Repr

def chosenAction (shouldBan : Bool) : ModAction :=
  if shouldBan then .ban else .warn

/-- Failure injection for the Discord enforcement steps.  logAvail is
whether get_log_channel returned a channel (it returns None when the
channel is missing and creation fails). -/
structure DcFail where
  delFails : Bool
  warnFails : Bool
  logAvail : Bool
  logFails : Bool
  banFails : Bool

/-- Failure injection for the Telegram enforcement steps. -/
structure TgFail where
  replyFails : Bool
  delFails : Bool
  banFails : Bool

/-- Result of one apply_verdict invocation: the updated ledger, the new
count, the ban decision, and the trace of attempted platform calls. -/
structure VerdictOutcome where
  store : ViolStore
  newCount : ℕ
  shouldBan : Bool
  acts : List Act

/-- Discord apply_verdict.  The four effect steps each sit in their own
try/except, so the attempted-call trace does not depend on any of the
failure flags (only on log-channel availability and on should_ban). -/
def discordApplyVerdict (fail : DcFail) (result : JObj) (store : ViolStore)
    (g : ScopeId) (u : UserId) : VerdictOutcome :=
  let confidence := getConfidence result
  let prior := get_violations store g u
  let newCount := prior + 1
  let store1 := set_violations store g u newCount
  let shouldBan := decide (BAN_VIOLATION_THRESHOLD ≤ newCount) &&
    decide (BAN_CONFIDENCE_THRESHOLD ≤ confidence)
  let acts := [Act.deleteMsg, Act.warnReply] ++
    (if fail.logAvail then [Act.logPost] else []) ++
    (if shouldBan then [Act.banMember] else [])
  ⟨store1, newCount, shouldBan, acts⟩

/-- Telegram apply_verdict.  The warning reply comes first and its
except clause ends in `return`, so a failed reply aborts the rest;
delete and ban happen only on should_ban, each in its own try/except. -/
def telegramApplyVerdict (fail : TgFail) (result : JObj) (store : ViolStore)
    (g : ScopeId) (u : UserId) : VerdictOutcome :=
  let confidence := getConfidence result
  let prior := get_violations store g u
  let newCount := prior + 1
  let store1 := set_violations store g u newCount
  let shouldBan := decide (BAN_VIOLATION_THRESHOLD ≤ newCount) &&
    decide (BAN_CONFIDENCE_THRESHOLD ≤ confidence)
  let acts :=
    if fail.replyFails then [Act.warnReply]
    else if shouldBan then [Act.warnReply, Act.deleteMsg, Act.banMember]
    else [Act.warnReply]
  ⟨store1, newCount, shouldBan, acts⟩

/-! ## Message handlers

Telegram handle_text: classify the text, and
`if result and is_bad_result(result): await apply_verdict(...)`.
Python checks truthiness of the result first; a non-dict truthy verdict
makes `is_bad_result` raise inside the handler (the framework logs it),
which likewise yields no store change and no platform call, so the
guard below maps it to no action. -/

def resultTriggers : Option JVal → Bool
  | some (.obj kvs) => truthy (.obj kvs) && is_bad_result kvs
  | some _ => false
  | none => false

/-- Extract the dict payload of a triggering result. -/
def resultObj : Option JVal → JObj
  | some (.obj kvs) => kvs
  | _ => []

/-- Telegram handle_text after the classification call returned:
enforcement runs exactly when the normalized result is a truthy dict
that `is_bad_result` flags. -/
def telegramHandleText (fail : TgFail) (apiRes : Option JVal) (store : ViolStore)
    (g : ScopeId) (u : UserId) : ViolStore × List Act :=
  if resultTriggers apiRes then
    let o := telegramApplyVerdict fail (resultObj apiRes) store g u
    (o.store, o.acts)
  else (store, [])

/-! ## Discord on_message

Text is classified first; a harmful text verdict triggers apply_verdict
and `return` (attachments are skipped).  Otherwise the attachments are
scanned in order — an unreadable, oversized or unrecognised attachment
is skipped with `continue` — and the first harmful verdict triggers
apply_verdict followed by `break`.  A missing text (empty after strip)
and a failed text classification both contribute no text verdict. -/

/-- What one attachment contributed: skipped (read failure, unknown
type, oversized video), or classified with the API call's outcome. -/
inductive AttOutcome where
  | skipped : AttOutcome
  | classified (res : Option JVal) : AttOutcome

/-- Scan the attachment loop: apply the verdict for the first harmful
classified attachment, then break. -/
def discordScanAttachments (fail : DcFail) (atts : List AttOutcome) (store : ViolStore)
    (g : ScopeId) (u : UserId) : ViolStore × List JObj :=
  match atts with
  | [] => (store, [])
  | .skipped :: rest => discordScanAttachments fail rest store g u
  | .classified res :: rest =>
    if resultTriggers res then
      ((discordApplyVerdict fail (resultObj res) store g u).store, [resultObj res])
    else discordScanAttachments fail rest store g u

/-- Discord on_message after the ignore-guards: the text verdict, then
the attachment loop.  Returns the updated ledger and the list of
verdicts on which apply_verdict was invoked, in order. -/
def discordOnMessage (fail : DcFail) (textRes : Option JVal) (atts : List AttOutcome)
    (store : ViolStore) (g : ScopeId) (u : UserId) : ViolStore × List JObj :=
  if resultTriggers textRes then
    ((discordApplyVerdict fail (resultObj textRes) store g u).store, [resultObj textRes])
  else discordScanAttachments fail atts store g u

/-! ## Interleaved read/write of the violation count

The spec (section 5) requires the read-increment-write of a violation
count to be atomic per (scope, user).  In the source, apply_verdict
performs a separate `get_violations` read followed by a
`set_violations` write of the precomputed value `prior + 1`; the SQL
side stores the supplied value verbatim (`count = excluded.count`).
Between the two sits at least one await point (the HTTP call precedes
them, and the SQLite calls are separate connections), so the reads and
writes of concurrent events may interleave.  Each event is modelled by
one read operation (latching the current count into an event-local
register) and one write operation (storing latched + 1). -/

inductive RmwOp (n : ℕ) where
  | read (i : Fin n) : RmwOp n
  | write (i : Fin n) : RmwOp n

structure RmwState (n : ℕ) where
  store : ViolStore
  regs : Fin n → Option ℕ

def rmwStep (g : ScopeId) (u : UserId) (st : RmwState n) : RmwOp n → RmwState n
  | .read i =>
    { st with regs := Function.update st.regs i (some (get_violations st.store g u)) }
  | .write i =>
    match st.regs i with
    | some prior => { st with store := set_violations st.store g u (prior + 1) }
    | none => st

def runSched (g : ScopeId) (u : UserId) (init : RmwState n) (ops : List (RmwOp n)) :
    RmwState n :=
  ops.foldl (rmwStep g u) init

/-! ## Category toggling (Settings Editor)

Telegram settings_callback, action "cattoggle":
`cats.remove(cat_name) if cat_name in cats else cats.append(cat_name)`
— remove the first occurrence when present, append when absent.

Discord CategorySelect.callback replaces the stored set with the values
submitted by the multi-select; the select marks an option as selected
exactly when its tag is in the current set, so the submission produced
by toggling one tag is the current membership with that tag flipped,
enumerated in the fixed ALL_CATEGORIES order. -/

def ALL_CATEGORIES : List String :=
  ["sexual", "verbal_abuse", "harassment", "gasslighting", "threat", "stalking", "other"]

/-- Telegram cattoggle edit on one category list. -/
def toggleCategory (c : String) (cats : List String) : List String :=
  if c ∈ cats then cats.erase c else cats ++ [c]

/-- Discord: the values the select submits after the user flips tag `c`
relative to the current membership `cur`; the callback stores exactly
this list. -/
def discordToggleValues (c : String) (cur : List String) : List String :=
  ALL_CATEGORIES.filter (fun t => if t = c then !(decide (t ∈ cur)) else decide (t ∈ cur))

/-- A sequence of text messages by one (scope, user) pair, each already
classified: fold the Telegram text handler over the per-message
normalized API results. -/
def telegramTextSession (fail : TgFail) (g : ScopeId) (u : UserId) (s : ViolStore)
    (events : List (Option JVal)) : ViolStore :=
  events.foldl (fun st res => (telegramHandleText fail res st g u).1) s

/-! # Theorems -/

theorem chosenAction_eq_ban_iff (a b : Prop) [Decidable a] [Decidable b] :
    chosenAction (decide a && decide b) = ModAction.ban ↔ (a ∧ b) := by
  by_cases ha : a <;> by_cases hb : b <;> simp [chosenAction, ha, hb]

theorem chosenAction_eq_warn_iff (a b : Prop) [Decidable a] [Decidable b] :
    chosenAction (decide a && decide b) = ModAction.warn ↔ ¬(a ∧ b) := by
  by_cases ha : a <;> by_cases hb : b <;> simp [chosenAction, ha, hb]

/-- C1: for every harmful verdict processed by apply_verdict on either
platform, the chosen action is ban exactly when the incremented count
reaches 2 and the confidence reaches 0.80, and warn otherwise; with
prior count 1 and confidence 0.80 the action is ban, with prior count 1
and confidence 0.79 it is warn, and with prior count 0 it is warn for
every confidence. -/
theorem C1_ban_iff_thresholds :
    (∀ (f : DcFail) (r : JObj) (s : ViolStore) (g : ScopeId) (u : UserId),
      (chosenAction (discordApplyVerdict f r s g u).shouldBan = ModAction.ban ↔
        (2 ≤ (discordApplyVerdict f r s g u).newCount ∧ 80/100 ≤ getConfidence r)) ∧
      (chosenAction (discordApplyVerdict f r s g u).shouldBan = ModAction.warn ↔
        ¬(2 ≤ (discordApplyVerdict f r s g u).newCount ∧ 80/100 ≤ getConfidence r))) ∧
    (∀ (f : TgFail) (r : JObj) (s : ViolStore) (g : ScopeId) (u : UserId),
      (chosenAction (telegramApplyVerdict f r s g u).shouldBan = ModAction.ban ↔
        (2 ≤ (telegramApplyVerdict f r s g u).newCount ∧ 80/100 ≤ getConfidence r)) ∧
      (chosenAction (telegramApplyVerdict f r s g u).shouldBan = ModAction.warn ↔
        ¬(2 ≤ (telegramApplyVerdict f r s g u).newCount ∧ 80/100 ≤ getConfidence r))) ∧
    (∀ (f : DcFail) (g : ScopeId) (u : UserId),
      chosenAction (discordApplyVerdict f [("confidence", JVal.num (80/100))]
        (fun _ _ => 1) g u).shouldBan = ModAction.ban) ∧
    (∀ (f : DcFail) (g : ScopeId) (u : UserId),
      chosenAction (discordApplyVerdict f [("confidence", JVal.num (79/100))]
        (fun _ _ => 1) g u).shouldBan = ModAction.warn) ∧
    (∀ (f : DcFail) (g : ScopeId) (u : UserId) (q : ℚ),
      chosenAction (discordApplyVerdict f [("confidence", JVal.num q)]
        (fun _ _ => 0) g u).shouldBan = ModAction.warn) ∧
    (∀ (f : TgFail) (g : ScopeId) (u : UserId),
      chosenAction (telegramApplyVerdict f [("confidence", JVal.num (80/100))]
        (fun _ _ => 1) g u).shouldBan = ModAction.ban) ∧
    (∀ (f : TgFail) (g : ScopeId) (u : UserId),
      chosenAction (telegramApplyVerdict f [("confidence", JVal.num (79/100))]
        (fun _ _ => 1) g u).shouldBan = ModAction.warn) ∧
    (∀ (f : TgFail) (g : ScopeId) (u : UserId) (q : ℚ),
      chosenAction (telegramApplyVerdict f [("confidence", JVal.num q)]
        (fun _ _ => 0) g u).shouldBan = ModAction.warn) := by
  refine ⟨fun f r s g u => ⟨?_, ?_⟩, fun f r s g u => ⟨?_, ?_⟩, ?_, ?_, ?_, ?_, ?_, ?_⟩
  · simpa [discordApplyVerdict, BAN_VIOLATION_THRESHOLD, BAN_CONFIDENCE_THRESHOLD] using
      chosenAction_eq_ban_iff (2 ≤ get_violations s g u + 1) (80/100 ≤ getConfidence r)
  · simpa [discordApplyVerdict, BAN_VIOLATION_THRESHOLD, BAN_CONFIDENCE_THRESHOLD] using
      chosenAction_eq_warn_iff (2 ≤ get_violations s g u + 1) (80/100 ≤ getConfidence r)
  · simpa [telegramApplyVerdict, BAN_VIOLATION_THRESHOLD, BAN_CONFIDENCE_THRESHOLD] using
      chosenAction_eq_ban_iff (2 ≤ get_violations s g u + 1) (80/100 ≤ getConfidence r)
  · simpa [telegramApplyVerdict, BAN_VIOLATION_THRESHOLD, BAN_CONFIDENCE_THRESHOLD] using
      chosenAction_eq_warn_iff (2 ≤ get_violations s g u + 1) (80/100 ≤ getConfidence r)
  · intro f g u
    simp [discordApplyVerdict, BAN_VIOLATION_THRESHOLD, BAN_CONFIDENCE_THRESHOLD,
      getConfidence, jlookup, get_violations, chosenAction]
  · intro f g u
    norm_num [discordApplyVerdict, BAN_VIOLATION_THRESHOLD, BAN_CONFIDENCE_THRESHOLD,
      getConfidence, jlookup, get_violations, chosenAction]
  · intro f g u q
    simp [discordApplyVerdict, BAN_VIOLATION_THRESHOLD, BAN_CONFIDENCE_THRESHOLD,
      getConfidence, jlookup, get_violations, chosenAction]
  · intro f g u
    simp [telegramApplyVerdict, BAN_VIOLATION_THRESHOLD, BAN_CONFIDENCE_THRESHOLD,
      getConfidence, jlookup, get_violations, chosenAction]
  · intro f g u
    norm_num [telegramApplyVerdict, BAN_VIOLATION_THRESHOLD, BAN_CONFIDENCE_THRESHOLD,
      getConfidence, jlookup, get_violations, chosenAction]
  · intro f g u q
    simp [telegramApplyVerdict, BAN_VIOLATION_THRESHOLD, BAN_CONFIDENCE_THRESHOLD,
      getConfidence, jlookup, get_violations, chosenAction]

theorem discordApplyVerdict_store (f : DcFail) (r : JObj) (s : ViolStore)
    (g : ScopeId) (u : UserId) :
    (discordApplyVerdict f r s g u).store g u = s g u + 1 := by
  simp [discordApplyVerdict, set_violations, get_violations]

theorem telegramApplyVerdict_store (f : TgFail) (r : JObj) (s : ViolStore)
    (g : ScopeId) (u : UserId) :
    (telegramApplyVerdict f r s g u).store g u = s g u + 1 := by
  simp [telegramApplyVerdict, set_violations, get_violations]

theorem telegramHandleText_store (f : TgFail) (res : Option JVal) (s : ViolStore)
    (g : ScopeId) (u : UserId) :
    (telegramHandleText f res s g u).1 g u =
      s g u + (if resultTriggers res then 1 else 0) := by
  unfold telegramHandleText
  by_cases h : resultTriggers res
  · simp [h, telegramApplyVerdict_store]
  · simp [h]

theorem telegramTextSession_count (f : TgFail) (g : ScopeId) (u : UserId)
    (events : List (Option JVal)) :
    ∀ (s : ViolStore),
      telegramTextSession f g u s events g u = s g u + events.countP resultTriggers := by
  induction events with
  | nil => intro s; simp [telegramTextSession]
  | cons e rest ih =>
    intro s
    have hstep := telegramHandleText_store f e s g u
    calc telegramTextSession f g u s (e :: rest) g u
        = telegramTextSession f g u (telegramHandleText f e s g u).1 rest g u := rfl
      _ = (telegramHandleText f e s g u).1 g u + rest.countP resultTriggers := ih _
      _ = s g u + (e :: rest).countP resultTriggers := by
          rw [hstep, List.countP_cons]
          by_cases h : resultTriggers e
          · simp [h]; ring
          · simp [h]

/-- C2: every harmful detection sets the stored violation count to
prior + 1, for every result dict (hence every category and confidence);
starting from count 0, a sequence of classified messages leaves the
count at exactly the number of harmful detections (safe results and
failed classifications never enter the enforcement path and change
nothing). -/
theorem C2_unconditional_increment :
    (∀ (f : DcFail) (r : JObj) (s : ViolStore) (g : ScopeId) (u : UserId),
      (discordApplyVerdict f r s g u).store g u = s g u + 1) ∧
    (∀ (f : TgFail) (r : JObj) (s : ViolStore) (g : ScopeId) (u : UserId),
      (telegramApplyVerdict f r s g u).store g u = s g u + 1) ∧
    (∀ (f : TgFail) (g : ScopeId) (u : UserId) (events : List (Option JVal)),
      telegramTextSession f g u (fun _ _ => 0) events g u =
        events.countP resultTriggers) ∧
    (∀ (f : TgFail) (res : Option JVal) (s : ViolStore) (g : ScopeId) (u : UserId),
      resultTriggers res = false → telegramHandleText f res s g u = (s, [])) := by
  refine ⟨discordApplyVerdict_store, telegramApplyVerdict_store, ?_, ?_⟩
  · intro f g u events
    simpa using telegramTextSession_count f g u events (fun _ _ => 0)
  · intro f res s g u h
    simp [telegramHandleText, h]

theorem C2_unconditional_increment_witness :
    resultTriggers none = false ∧
    telegramHandleText ⟨false, false, false⟩ none (fun _ _ => 0) 0 0 =
      ((fun _ _ => 0 : ViolStore), []) :=
  ⟨rfl, C2_unconditional_increment.2.2.2 ⟨false, false, false⟩ none (fun _ _ => 0) 0 0 rfl⟩

theorem discordScanAttachments_spec (f : DcFail) (g : ScopeId) (u : UserId)
    (atts : List AttOutcome) :
    ∀ (s : ViolStore),
      (discordScanAttachments f atts s g u).2.length ≤ 1 ∧
      (discordScanAttachments f atts s g u).1 g u =
        s g u + (discordScanAttachments f atts s g u).2.length := by
  induction atts with
  | nil => intro s; simp [discordScanAttachments]
  | cons a rest ih =>
    intro s
    cases a with
    | skipped => simpa [discordScanAttachments] using ih s
    | classified res =>
      by_cases h : resultTriggers res
      · simp [discordScanAttachments, h, discordApplyVerdict_store]
      · simpa [discordScanAttachments, h] using ih s

/-- C10: a single inbound Discord message produces at most one
apply_verdict invocation (the handler returns after a harmful text
verdict and breaks after the first harmful attachment), so the sender's
stored count rises by at most one; it rises by exactly the number of
invocations. -/
theorem C10_at_most_one_enforcement (f : DcFail) (textRes : Option JVal)
    (atts : List AttOutcome) (s : ViolStore) (g : ScopeId) (u : UserId) :
    (discordOnMessage f textRes atts s g u).2.length ≤ 1 ∧
    (discordOnMessage f textRes atts s g u).1 g u =
      s g u + (discordOnMessage f textRes atts s g u).2.length := by
  unfold discordOnMessage
  by_cases h : resultTriggers textRes
  · simp [h, discordApplyVerdict_store]
  · simpa [h] using discordScanAttachments_spec f g u atts s

/-- C3 counterexample: a Telegram harmful verdict with prior count 0
(hence no ban) issues only the warning reply — no delete is attempted,
refuting that both platforms delete the offending message on every
invocation of the enforcement path. -/
theorem C3_counterexample :
    (telegramApplyVerdict ⟨false, false, false⟩ [("confidence", JVal.num 1)]
      (fun _ _ => 0) 0 0).acts = [Act.warnReply] ∧
    Act.deleteMsg ∉ (telegramApplyVerdict ⟨false, false, false⟩
      [("confidence", JVal.num 1)] (fun _ _ => 0) 0 0).acts := by
  constructor
  · rfl
  · decide

/-- C3 amended: on Discord every invocation of the enforcement path
attempts to delete the offending message, regardless of failures and of
whether the ban threshold is reached; on Telegram the delete is
attempted exactly when the ban threshold is reached and the warning
reply did not fail; on both platforms the enforcement path is only
entered on a verdict flagged harmful. -/
theorem C3_amended_delete_policy :
    (∀ (f : DcFail) (r : JObj) (s : ViolStore) (g : ScopeId) (u : UserId),
      Act.deleteMsg ∈ (discordApplyVerdict f r s g u).acts) ∧
    (∀ (f : TgFail) (r : JObj) (s : ViolStore) (g : ScopeId) (u : UserId),
      Act.deleteMsg ∈ (telegramApplyVerdict f r s g u).acts ↔
        ((telegramApplyVerdict f r s g u).shouldBan = true ∧ f.replyFails = false)) ∧
    (∀ (f : TgFail) (res : Option JVal) (s : ViolStore) (g : ScopeId) (u : UserId),
      (telegramHandleText f res s g u).2 ≠ [] → resultTriggers res = true) ∧
    (∀ (f : DcFail) (textRes : Option JVal) (atts : List AttOutcome) (s : ViolStore)
      (g : ScopeId) (u : UserId),
      ∀ r ∈ (discordOnMessage f textRes atts s g u).2, is_bad_result r = true) := by
  refine ⟨?_, ?_, ?_, ?_⟩
  · intro f r s g u
    simp [discordApplyVerdict]
  · intro f r s g u
    unfold telegramApplyVerdict
    cases hr : f.replyFails
    · by_cases hb : decide (BAN_VIOLATION_THRESHOLD ≤ get_violations s g u + 1) &&
        decide (BAN_CONFIDENCE_THRESHOLD ≤ getConfidence r)
      · simp [hr, hb]
      · simp [hr, hb]
    · simp [hr]
  · intro f res s g u h
    by_cases ht : resultTriggers res
    · exact ht
    · exact absurd (by simp [telegramHandleText, ht]) h
  · intro f textRes atts s g u r hr
    have htrig : ∀ (res : Option JVal), resultTriggers res = true →
        is_bad_result (resultObj res) = true := by
      intro res htr
      cases res with
      | none => simp [resultTriggers] at htr
      | some v =>
        cases v with
        | obj kvs =>
          simp only [resultTriggers, Bool.and_eq_true] at htr
          simpa [resultObj] using htr.2
        | null => simp [resultTriggers] at htr
        | bool b => simp [resultTriggers] at htr
        | num q => simp [resultTriggers] at htr
        | str st => simp [resultTriggers] at htr
        | arr xs => simp [resultTriggers] at htr
    unfold discordOnMessage at hr
    by_cases h : resultTriggers textRes
    · simp [h] at hr
      subst hr
      exact htrig textRes h
    · simp [h] at hr
      clear h
      induction atts with
      | nil => simp [discordScanAttachments] at hr
      | cons a rest ih =>
        cases a with
        | skipped =>
          exact ih (by simpa [discordScanAttachments] using hr)
        | classified res =>
          by_cases hres : resultTriggers res
          · simp [discordScanAttachments, hres] at hr
            subst hr
            exact htrig res hres
          · exact ih (by simpa [discordScanAttachments, hres] using hr)

theorem C3_amended_delete_policy_witness :
    resultTriggers (some (.obj [("is_bad", JVal.bool true)])) = true ∧
    Act.deleteMsg ∈ (telegramApplyVerdict ⟨false, false, false⟩
      [("confidence", JVal.num 1)] (fun _ _ => 1) 0 0).acts :=
  ⟨C3_amended_delete_policy.2.2.1 ⟨false, false, false⟩
      (some (.obj [("is_bad", JVal.bool true)])) (fun _ _ => 0) 0 0 (by decide),
    (C3_amended_delete_policy.2.1 ⟨false, false, false⟩
      [("confidence", JVal.num 1)] (fun _ _ => 1) 0 0).mpr
      ⟨by norm_num [telegramApplyVerdict, BAN_VIOLATION_THRESHOLD,
          BAN_CONFIDENCE_THRESHOLD, getConfidence, jlookup, get_violations], rfl⟩⟩

/-- C4 counterexample: a Telegram harmful verdict at prior count 1 with
confidence 0.80 reaches the ban threshold, yet when the warning reply
fails the handler returns before the ban — a failed earlier step does
prevent the ban attempt, refuting the claimed isolation on both
platforms. -/
theorem C4_counterexample :
    (telegramApplyVerdict ⟨true, false, false⟩ [("confidence", JVal.num (80/100))]
      (fun _ _ => 1) 0 0).shouldBan = true ∧
    Act.banMember ∉ (telegramApplyVerdict ⟨true, false, false⟩
      [("confidence", JVal.num (80/100))] (fun _ _ => 1) 0 0).acts := by
  constructor
  · norm_num [telegramApplyVerdict, BAN_VIOLATION_THRESHOLD,
      BAN_CONFIDENCE_THRESHOLD, getConfidence, jlookup, get_violations]
  · norm_num [telegramApplyVerdict, BAN_VIOLATION_THRESHOLD,
      BAN_CONFIDENCE_THRESHOLD, getConfidence, jlookup, get_violations]
    decide

/-- C4 amended: on Discord each enforcement step sits in its own
exception guard, so the attempted-call trace never depends on the
failure flags (only on log-channel availability) and the ban is
attempted whenever the threshold is reached; on Telegram a failed
delete still lets the ban be attempted, but a failed warning reply
aborts the remaining steps, leaving only the reply attempt. -/
theorem C4_amended_failure_isolation :
    (∀ (f₁ f₂ : DcFail) (r : JObj) (s : ViolStore) (g : ScopeId) (u : UserId),
      f₁.logAvail = f₂.logAvail →
        (discordApplyVerdict f₁ r s g u).acts = (discordApplyVerdict f₂ r s g u).acts) ∧
    (∀ (f : DcFail) (r : JObj) (s : ViolStore) (g : ScopeId) (u : UserId),
      Act.banMember ∈ (discordApplyVerdict f r s g u).acts ↔
        (discordApplyVerdict f r s g u).shouldBan = true) ∧
    (∀ (f : TgFail) (r : JObj) (s : ViolStore) (g : ScopeId) (u : UserId),
      f.replyFails = false →
        (Act.banMember ∈ (telegramApplyVerdict f r s g u).acts ↔
          (telegramApplyVerdict f r s g u).shouldBan = true)) ∧
    (∀ (f : TgFail) (r : JObj) (s : ViolStore) (g : ScopeId) (u : UserId),
      f.replyFails = true → (telegramApplyVerdict f r s g u).acts = [Act.warnReply]) := by
  refine ⟨?_, ?_, ?_, ?_⟩
  · intro f₁ f₂ r s g u h
    simp [discordApplyVerdict, h]
  · intro f r s g u
    unfold discordApplyVerdict
    by_cases hb : decide (BAN_VIOLATION_THRESHOLD ≤ get_violations s g u + 1) &&
      decide (BAN_CONFIDENCE_THRESHOLD ≤ getConfidence r)
    · by_cases hl : f.logAvail
      · simp [hb, hl]
      · simp [hb, hl]
    · by_cases hl : f.logAvail
      · simp [hb, hl]
      · simp [hb, hl]
  · intro f r s g u h
    unfold telegramApplyVerdict
    by_cases hb : decide (BAN_VIOLATION_THRESHOLD ≤ get_violations s g u + 1) &&
      decide (BAN_CONFIDENCE_THRESHOLD ≤ getConfidence r)
    · simp [h, hb]
    · simp [h, hb]
  · intro f r s g u h
    simp [telegramApplyVerdict, h]

theorem C4_amended_failure_isolation_witness :
    ((discordApplyVerdict ⟨true, true, true, true, false⟩ [] (fun _ _ => 0) 0 0).acts =
      (discordApplyVerdict ⟨false, false, true, false, true⟩ [] (fun _ _ => 0) 0 0).acts) ∧
    (Act.banMember ∈ (telegramApplyVerdict ⟨false, true, false⟩
        [("confidence", JVal.num (80/100))] (fun _ _ => 1) 0 0).acts ↔
      (telegramApplyVerdict ⟨false, true, false⟩ [("confidence", JVal.num (80/100))]
        (fun _ _ => 1) 0 0).shouldBan = true) ∧
    (telegramApplyVerdict ⟨true, false, false⟩ [("confidence", JVal.num (80/100))]
      (fun _ _ => 1) 0 0).acts = [Act.warnReply] :=
  ⟨C4_amended_failure_isolation.1 ⟨true, true, true, true, false⟩
      ⟨false, false, true, false, true⟩ [] (fun _ _ => 0) 0 0 rfl,
    C4_amended_failure_isolation.2.2.1 ⟨false, true, false⟩
      [("confidence", JVal.num (80/100))] (fun _ _ => 1) 0 0 rfl,
    C4_amended_failure_isolation.2.2.2 ⟨true, false, false⟩
      [("confidence", JVal.num (80/100))] (fun _ _ => 1) 0 0 rfl⟩

/-- C5: the source performs a separate `get_violations` read followed by
a `set_violations` write of the precomputed `prior + 1` (the SQL upsert
stores the supplied value verbatim), so two concurrent harmful-verdict
events for the same (scope, user) that both read before either writes
leave the count at prior + 1 instead of prior + 2 — a lost update.  The
same two events run back to back do reach prior + 2. -/
theorem C5_lost_update_interleaving :
    (runSched 0 0 (⟨fun _ _ => 0, fun _ => none⟩ : RmwState 2)
      [RmwOp.read 0, RmwOp.read 1, RmwOp.write 0, RmwOp.write 1]).store 0 0 = 1 ∧
    (1 : ℕ) ≠ 0 + 2 ∧
    (runSched 0 0 (⟨fun _ _ => 0, fun _ => none⟩ : RmwState 2)
      [RmwOp.read 0, RmwOp.write 0, RmwOp.read 1, RmwOp.write 1]).store 0 0 = 2 := by
  refine ⟨by decide, by decide, by decide⟩

/-- C6 counterexample: with a stored override raising the confidence
threshold to 0.9, writing a snapshot that only sets auto_warn to false
replaces the stored blob wholesale, so a subsequent read yields the
default 0.55 for the omitted field instead of retaining the prior
stored 0.9 — refuting the claimed retention of omitted fields. -/
theorem C6_counterexample :
    getNumField
      (get_settings discordDefaultSettings
        (save_settings
          (fun gid => if gid = 0 then
            some [("min_confidence_for_action", JVal.num (9/10))] else none)
          0 [("auto_warn", JVal.bool false)])
        0)
      "min_confidence_for_action" = some (55/100) ∧
    (some (55/100) : Option ℚ) ≠ some (9/10) := by
  constructor
  · norm_num [get_settings, save_settings, getNumField, mergeDicts,
      discordDefaultSettings, jlookup]
    rfl
  · norm_num

/-- C6 amended: reading settings yields defaults overlaid with the
stored overrides — a scope with no row gets the defaults, and for every
key the loaded value is the stored one when present, else the default
(unknown stored keys never disturb a schema key) — and after writing a
snapshot a read returns defaults overlaid with exactly the written
overrides, fields omitted from the write falling back to their defaults
because the write replaces the stored blob wholesale.  Both platforms
load and save identically, differing only in their default dict. -/
theorem C6_amended_settings_overlay :
    (∀ (defaults : JObj) (store : SettingsStore) (g : ScopeId),
      store g = none → get_settings defaults store g = defaults) ∧
    (∀ (defaults stored : JObj) (store : SettingsStore) (g : ScopeId) (k : String),
      store g = some stored →
        jlookup (get_settings defaults store g) k =
          ((jlookup stored k).orElse (fun _ => jlookup defaults k))) ∧
    (∀ (defaults : JObj) (store : SettingsStore) (g : ScopeId) (st : JObj),
      get_settings defaults (save_settings store g st) g = mergeDicts defaults st) ∧
    (∀ (defaults : JObj) (store : SettingsStore) (g : ScopeId) (st : JObj) (k : String),
      jlookup st k = none →
        jlookup (get_settings defaults (save_settings store g st) g) k =
          jlookup defaults k) := by
  refine ⟨?_, ?_, ?_, ?_⟩
  · intro defaults store g h
    simp [get_settings, h]
  · intro defaults stored store g k h
    simp [get_settings, h, jlookup_mergeDicts]
  · intro defaults store g st
    simp [get_settings, save_settings]
  · intro defaults store g st k h
    simp [get_settings, save_settings, jlookup_mergeDicts, h, Option.orElse]

theorem C6_amended_settings_overlay_witness :
    get_settings discordDefaultSettings (fun _ => none) 0 = discordDefaultSettings ∧
    jlookup
      (get_settings telegramDefaultSettings
        (fun gid => if gid = 0 then some [("mute_minutes", JVal.num 120)] else none) 0)
      "mute_minutes" =
      ((jlookup [("mute_minutes", JVal.num 120)] "mute_minutes").orElse
        (fun _ => jlookup telegramDefaultSettings "mute_minutes")) ∧
    jlookup
      (get_settings discordDefaultSettings
        (save_settings (fun _ => none) 0 [("auto_warn", JVal.bool false)]) 0)
      "auto_block" = jlookup discordDefaultSettings "auto_block" :=
  ⟨C6_amended_settings_overlay.1 discordDefaultSettings (fun _ => none) 0 rfl,
    C6_amended_settings_overlay.2.1 telegramDefaultSettings
      [("mute_minutes", JVal.num 120)]
      (fun gid => if gid = 0 then some [("mute_minutes", JVal.num 120)] else none) 0
      "mute_minutes" (by simp),
    C6_amended_settings_overlay.2.2.2 discordDefaultSettings (fun _ => none) 0
      [("auto_warn", JVal.bool false)] "auto_block" (by simp [jlookup])⟩

/-- C7: a classification call that raises (timeout, connection failure,
unparseable response) yields None instead of propagating the exception,
and a failed classification produces no enforcement action and no
violation-count change: the Telegram text handler leaves the ledger
untouched and attempts no platform call, and a Discord message whose
text and attachment classifications all failed does likewise. -/
theorem C7_failure_no_enforcement :
    api_text ApiOutcome.error = none ∧
    (∀ (f : TgFail) (s : ViolStore) (g : ScopeId) (u : UserId),
      telegramHandleText f none s g u = (s, [])) ∧
    (∀ (f : DcFail) (s : ViolStore) (g : ScopeId) (u : UserId) (n : ℕ),
      discordOnMessage f none (List.replicate n (AttOutcome.classified none)) s g u =
        (s, [])) := by
  refine ⟨rfl, ?_, ?_⟩
  · intro f s g u
    simp [telegramHandleText, resultTriggers]
  · intro f s g u n
    unfold discordOnMessage
    simp only [resultTriggers, if_false]
    induction n with
    | zero => simp [discordScanAttachments]
    | succ m ih => simpa [List.replicate, discordScanAttachments, resultTriggers] using ih

/-- C8: the response normalization of api_text takes element 0 of a
`results` sequence when the decoded body is a mapping containing one,
and the decoded body itself otherwise; the wrapped and the bare
harmful-verdict shapes both normalize to a verdict that the downstream
harmfulness test flags. -/
theorem C8_response_normalization :
    (∀ (kvs : JObj) (v : JVal) (vs : List JVal),
      jlookup kvs "results" = some (.arr (v :: vs)) →
        api_text (ApiOutcome.ok (.obj kvs)) = some v) ∧
    (∀ (kvs : JObj), jlookup kvs "results" = none →
      api_text (ApiOutcome.ok (.obj kvs)) = some (.obj kvs)) ∧
    (api_text (ApiOutcome.ok .null) = some .null) ∧
    (∀ (b : Bool), api_text (ApiOutcome.ok (.bool b)) = some (.bool b)) ∧
    (∀ (q : ℚ), api_text (ApiOutcome.ok (.num q)) = some (.num q)) ∧
    (∀ (s : String), api_text (ApiOutcome.ok (.str s)) = some (.str s)) ∧
    (∀ (xs : List JVal), api_text (ApiOutcome.ok (.arr xs)) = some (.arr xs)) ∧
    (api_text (ApiOutcome.ok
        (.obj [("results", .arr [.obj [("is_bad", JVal.bool true)]])])) =
      some (.obj [("is_bad", JVal.bool true)])) ∧
    (api_text (ApiOutcome.ok (.obj [("is_bad", JVal.bool true)])) =
      some (.obj [("is_bad", JVal.bool true)])) ∧
    is_bad_result [("is_bad", JVal.bool true)] = true ∧
    is_bad_result [("is_bad", JVal.bool false), ("status", JVal.str "bad")] = true := by
  refine ⟨?_, ?_, rfl, fun b => rfl, fun q => rfl, fun s => rfl, fun xs => rfl,
    rfl, rfl, rfl, rfl⟩
  · intro kvs v vs h
    simp [api_text, h]
  · intro kvs h
    simp [api_text, h]

theorem C8_response_normalization_witness :
    jlookup [("results", JVal.arr [.obj [("is_bad", JVal.bool true)]])] "results" =
      some (.arr [.obj [("is_bad", JVal.bool true)]]) ∧
    api_text (ApiOutcome.ok
        (.obj [("results", JVal.arr [.obj [("is_bad", JVal.bool true)]])])) =
      some (.obj [("is_bad", JVal.bool true)]) ∧
    api_text (ApiOutcome.ok (.obj [("is_bad", JVal.bool true)])) =
      some (.obj [("is_bad", JVal.bool true)]) :=
  ⟨rfl,
    C8_response_normalization.1 [("results", JVal.arr [.obj [("is_bad", JVal.bool true)]])]
      (.obj [("is_bad", JVal.bool true)]) [] rfl,
    C8_response_normalization.2.1 [("is_bad", JVal.bool true)] rfl⟩

/-- C9: toggling the same category tag twice leaves the set's
membership unchanged — the Telegram cattoggle edit removes a present
tag and appends an absent one, and on a duplicate-free list (all
reachable category lists are duplicate-free, which a single toggle
preserves) the double application restores the original membership; the
Discord select submission that flips one tag relative to the current
membership likewise restores it when applied twice, for sets drawn from
the fixed category universe. -/
theorem C9_toggle_involution :
    (∀ (cats : List String) (c : String), cats.Nodup →
      ((toggleCategory c cats).Nodup ∧
        ∀ x, x ∈ toggleCategory c (toggleCategory c cats) ↔ x ∈ cats)) ∧
    (∀ (cur : List String) (c : String), (∀ x ∈ cur, x ∈ ALL_CATEGORIES) →
      ∀ x, x ∈ discordToggleValues c (discordToggleValues c cur) ↔ x ∈ cur) := by
  constructor
  · intro cats c hnd
    by_cases hc : c ∈ cats
    · refine ⟨?_, ?_⟩
      · simpa [toggleCategory, hc] using hnd.erase c
      · intro x
        have hercase : toggleCategory c cats = cats.erase c := by simp [toggleCategory, hc]
        have hnotin : c ∉ cats.erase c := hnd.not_mem_erase
        rw [hercase]
        simp only [toggleCategory, hnotin, if_neg, List.mem_append, List.mem_singleton]
        by_cases hx : x = c
        · subst hx; simpa using hc
        · simp [List.mem_erase_of_ne hx, hx]
    · refine ⟨?_, ?_⟩
      · simp [toggleCategory, hc, List.nodup_append, hnd]
      · intro x
        have happ : toggleCategory c cats = cats ++ [c] := by simp [toggleCategory, hc]
        have hmem : c ∈ cats ++ [c] := by simp
        have herase : (cats ++ [c]).erase c = cats := by
          rw [List.erase_append_right _ hc]
          simp
        rw [happ]
        simp [toggleCategory, hmem, herase]
  · intro cur c hsub x
    by_cases hx : x ∈ ALL_CATEGORIES
    · by_cases hxc : x = c
      · subst hxc
        by_cases hcur : x ∈ cur
        · simp [discordToggleValues, List.mem_filter, hx, hcur]
        · simp [discordToggleValues, List.mem_filter, hx, hcur]
      · by_cases hcur : x ∈ cur
        · simp [discordToggleValues, List.mem_filter, hx, hxc, hcur]
        · simp [discordToggleValues, List.mem_filter, hx, hxc, hcur]
    · constructor
      · intro hmem
        unfold discordToggleValues at hmem
        exact absurd (List.mem_of_mem_filter hmem) hx
      · intro hmem
        exact absurd (hsub x hmem) hx

theorem C9_toggle_involution_witness :
    ("threat" ∈ toggleCategory "threat" (toggleCategory "threat" ["threat", "stalking"]) ↔
      "threat" ∈ ["threat", "stalking"]) ∧
    ("sexual" ∈ discordToggleValues "sexual"
        (discordToggleValues "sexual" ["threat", "stalking"]) ↔
      "sexual" ∈ ["threat", "stalking"]) :=
  ⟨(C9_toggle_involution.1 ["threat", "stalking"] "threat" (by decide)).2 "threat",
    C9_toggle_involution.2 ["threat", "stalking"] "sexual" (by decide) "sexual"⟩

end Mokosh
